import Mathlib

/-!
Shallow embedding of the Model Performance Validation Engine of
`src/metrics/performance_metrics.py`.

Real numbers (Python floats) are modelled as rationals `ℚ`; boolean label
arrays as `List Bool`; Python `ValueError`s as an explicit error type carried
by `Except`.  The numpy global random generator is modelled as a `Nat` state
threaded explicitly through the bootstrap functions; `np.random.seed r`
becomes `npSeed r`, which replaces the ambient state by a function of the
seed alone, and `np.random.randint 0 n` becomes one step of a linear
congruential generator reduced mod `n`.  The claims proved below depend only
on the generator being a deterministic pure function of its state, never on
the particular values it produces.
-/

/-- Model of the numpy pseudo-random generator: one step of a 64-bit linear
congruential generator.  Stands in for the Mersenne Twister; all theorems
below use only that it is a pure function of the state. -/
def lcgNext (s : Nat) : Nat :=
  (6364136223846793005 * s + 1442695040888963407) % 2 ^ 64

/-- Model of `np.random.seed(random_state)` (line 165 etc.): the ambient
generator state is discarded and replaced by a function of the seed alone. -/
def npSeed (seed : Nat) : Nat :=
  lcgNext (seed % 2 ^ 32)

/-- `n` draws of `np.random.randint(0, n, n)`-style indices: each draw is one
generator step reduced mod the bound.  First argument is how many draws,
second the exclusive bound, third the generator state. -/
def drawIndices : Nat → Nat → Nat → List Nat × Nat
  | 0, _, s => ([], s)
  | k + 1, n, s =>
    let t := lcgNext s
    let (rest, s2) := drawIndices k n t
    (t % n :: rest, s2)

/-- The bootstrap loop of lines 171-182 / 248-266 / 316-325: each of the
first-argument-many iterations draws `n` resample indices and applies the
per-draw scoring body to them, collecting the scores in order. -/
def bootLoop {α : Type} (score : List Nat → α) : Nat → Nat → Nat → List α × Nat
  | 0, _, s => ([], s)
  | k + 1, n, s =>
    let (idxs, s1) := drawIndices n n s
    let (rest, s2) := bootLoop score k n s1
    (score idxs :: rest, s2)

/-- `y[indices]` resampling: fancy indexing of a label array by an index list
(indices produced by `drawIndices` are always in range; the default is
irrelevant there). -/
def resample (l : List Bool) (idxs : List Nat) : List Bool :=
  idxs.map (fun i => l.getD i false)

/-- True positives of `confusion_matrix(y_true, y_pred, labels=[0,1])`. -/
def countTP (yt yp : List Bool) : Nat :=
  ((yt.zip yp).filter (fun p => p.1 && p.2)).length

/-- False positives: ground truth negative, prediction positive. -/
def countFP (yt yp : List Bool) : Nat :=
  ((yt.zip yp).filter (fun p => !p.1 && p.2)).length

/-- True negatives. -/
def countTN (yt yp : List Bool) : Nat :=
  ((yt.zip yp).filter (fun p => !p.1 && !p.2)).length

/-- False negatives: ground truth positive, prediction negative. -/
def countFN (yt yp : List Bool) : Nat :=
  ((yt.zip yp).filter (fun p => p.1 && !p.2)).length

/-- `sklearn.metrics.precision_score(..., zero_division=0)`:
`TP/(TP+FP)`, with the documented 0.0 fallback when no positive
predictions exist. -/
def precisionScore (yt yp : List Bool) : ℚ :=
  if countTP yt yp + countFP yt yp = 0 then 0
  else (countTP yt yp : ℚ) / ((countTP yt yp : ℚ) + (countFP yt yp : ℚ))

/-- `sklearn.metrics.recall_score(..., zero_division=0)`: `TP/(TP+FN)`. -/
def recallScore (yt yp : List Bool) : ℚ :=
  if countTP yt yp + countFN yt yp = 0 then 0
  else (countTP yt yp : ℚ) / ((countTP yt yp : ℚ) + (countFN yt yp : ℚ))

/-- `sklearn.metrics.f1_score(..., zero_division=0)`:
`2·P·R/(P+R)` with the 0.0 fallback when `P+R = 0`. -/
def f1Score (yt yp : List Bool) : ℚ :=
  if precisionScore yt yp + recallScore yt yp = 0 then 0
  else 2 * precisionScore yt yp * recallScore yt yp /
    (precisionScore yt yp + recallScore yt yp)

/-- Per-draw body of the F1 bootstrap loop (lines 171-182): resample both
arrays, return 0.0 when the resample has no positive predictions or no
positive ground truth, otherwise its F1 score. -/
def f1BootScore (yt yp : List Bool) (idxs : List Nat) : ℚ :=
  let ytb := resample yt idxs
  let ypb := resample yp idxs
  if ypb.count true = 0 ∨ ytb.count true = 0 then 0 else f1Score ytb ypb

/-- Per-draw body of the FPR bootstrap loop (lines 248-266): 0.0 when the
resample has no ground-truth negatives, else `FP/(FP+TN)`.  (The
`cm.shape != (2, 2)` branch of the source is unreachable because
`confusion_matrix` is called with `labels=[0,1]` fixed, which always yields a
2x2 matrix.) -/
def fprBootScore (yt yp : List Bool) (idxs : List Nat) : ℚ :=
  let ytb := resample yt idxs
  let ypb := resample yp idxs
  if countFP ytb ypb + countTN ytb ypb = 0 then 0
  else (countFP ytb ypb : ℚ) / ((countFP ytb ypb : ℚ) + (countTN ytb ypb : ℚ))

/-- Per-draw body of the joint precision/recall bootstrap loop (lines
316-325): one shared resample scored by both metrics. -/
def precRecallBootScore (yt yp : List Bool) (idxs : List Nat) : ℚ × ℚ :=
  let ytb := resample yt idxs
  let ypb := resample yp idxs
  (precisionScore ytb ypb, recallScore ytb ypb)

/-- Linear interpolation between order statistics of an already-sorted list,
numpy style: at fractional rank `h`, interpolate between elements
`⌊h⌋` and `⌊h⌋+1`. -/
def interpSorted (s : List ℚ) (h : ℚ) : ℚ :=
  let i := (⌊h⌋).toNat
  let a := s.getD i 0
  let b := s.getD (i + 1) a
  a + (h - (⌊h⌋ : ℚ)) * (b - a)

/-- `np.percentile(xs, p)` with the default linear interpolation method:
sort ascending and interpolate at rank `p/100 · (n-1)`.  On an empty list
the formula collapses to 0 (both neighbours default); the engine never
reaches that case, its iteration counts being positive. -/
def percentile (xs : List ℚ) (p : ℚ) : ℚ :=
  let s := List.insertionSort (· ≤ ·) xs
  interpSorted s (p / 100 * ((s.length : ℚ) - 1))

/-- Governance default `AFAAP_MIN_F1_SCORE` (line 35). -/
def MIN_F1_SCORE : ℚ := 85 / 100

/-- Governance default `AFAAP_MAX_FPR` (line 36). -/
def MAX_FPR : ℚ := 1 / 100

/-- Governance default `CONFIDENCE_INTERVAL` (line 37). -/
def CONFIDENCE_INTERVAL : ℚ := 95 / 100

/-- Governance default `BOOTSTRAP_ITERATIONS` (line 38). -/
def BOOTSTRAP_ITERATIONS : Nat := 10000

/-- The `PerformanceMetrics` dataclass (lines 41-66). -/
structure PerformanceMetrics where
  f1_score : ℚ
  f1_ci_lower : ℚ
  f1_ci_upper : ℚ
  fpr : ℚ
  fpr_ci_lower : ℚ
  fpr_ci_upper : ℚ
  precision : ℚ
  precision_ci_lower : ℚ
  precision_ci_upper : ℚ
  «recall» : ℚ
  recall_ci_lower : ℚ
  recall_ci_upper : ℚ
  true_positives : Nat
  false_positives : Nat
  true_negatives : Nat
  false_negatives : Nat
  auc_roc : Option ℚ
  total_samples : Nat
deriving DecidableEq

/-- The four violation messages of `meets_deployment_thresholds`, abstracted
from their f-string texts as tagged values carrying the offending value and
the threshold. -/
inductive Violation where
  | f1Below (value threshold : ℚ)
  | fprAbove (value threshold : ℚ)
  | f1CiBelow (value threshold : ℚ)
  | fprCiAbove (value threshold : ℚ)
deriving DecidableEq

/-- `PerformanceMetrics.meets_deployment_thresholds` (lines 68-100).  The
source reads the module-level `MIN_F1_SCORE` / `MAX_FPR`; they are passed
here as explicit arguments, instantiated with the defaults by callers. -/
def PerformanceMetrics.meets_deployment_thresholds (m : PerformanceMetrics)
    (min_f1 max_fpr : ℚ) : Bool × List Violation :=
  let failures : List Violation :=
    (if m.f1_score < min_f1 then [Violation.f1Below m.f1_score min_f1] else []) ++
    (if m.fpr > max_fpr then [Violation.fprAbove m.fpr max_fpr] else []) ++
    (if m.f1_ci_lower < min_f1 then [Violation.f1CiBelow m.f1_ci_lower min_f1] else []) ++
    (if m.fpr_ci_upper > max_fpr then [Violation.fprCiAbove m.fpr_ci_upper max_fpr] else [])
  (failures.length == 0, failures)

/-- The `ValueError`s raised by the module, distinguished by their messages. -/
inductive MErr where
  | emptyInput
  | lengthMismatch
  | emptyDataset
  | unknownMetric (name : String)
deriving DecidableEq

/-- Boolean success test on `Except` results. -/
def isOkB {ε α : Type} : Except ε α → Bool
  | .ok _ => true
  | .error _ => false

/-- `calculate_f1_with_ci` (lines 126-197): validation, point F1, reseed, the
bootstrap loop of `f1BootScore` draws, and the two percentile bounds at
`(alpha/2)·100` and `(1 - alpha/2)·100` with `alpha = 1 - confidence`.
Returns the `(f1, ci_lower, ci_upper)` triple together with the generator
state after the call. -/
def calculate_f1_with_ci (s : Nat) (y_true y_pred : List Bool)
    (confidence : ℚ) (n_bootstrap : Nat) (random_state : Nat) :
    Except MErr ((ℚ × ℚ × ℚ) × Nat) :=
  if y_true.length = 0 ∨ y_pred.length = 0 then .error .emptyInput
  else if y_true.length ≠ y_pred.length then .error .lengthMismatch
  else
    .ok ((f1Score y_true y_pred,
          percentile
            (bootLoop (f1BootScore y_true y_pred) n_bootstrap y_true.length
              (npSeed random_state)).1 ((1 - confidence) / 2 * 100),
          percentile
            (bootLoop (f1BootScore y_true y_pred) n_bootstrap y_true.length
              (npSeed random_state)).1 ((1 - (1 - confidence) / 2) * 100)),
         (bootLoop (f1BootScore y_true y_pred) n_bootstrap y_true.length
           (npSeed random_state)).2)

/-- `calculate_fpr_with_ci` (lines 200-281): validation, then if the full
dataset has no ground-truth negatives (`fp + tn == 0`) return `(0, 0, 0)`
before seeding or touching the generator; otherwise the point FPR, reseed,
bootstrap and percentile bounds. -/
def calculate_fpr_with_ci (s : Nat) (y_true y_pred : List Bool)
    (confidence : ℚ) (n_bootstrap : Nat) (random_state : Nat) :
    Except MErr ((ℚ × ℚ × ℚ) × Nat) :=
  if y_true.length = 0 ∨ y_pred.length = 0 then .error .emptyInput
  else if y_true.length ≠ y_pred.length then .error .lengthMismatch
  else if countFP y_true y_pred + countTN y_true y_pred = 0 then
    .ok ((0, 0, 0), s)
  else
    .ok (((countFP y_true y_pred : ℚ) /
            ((countFP y_true y_pred : ℚ) + (countTN y_true y_pred : ℚ)),
          percentile
            (bootLoop (fprBootScore y_true y_pred) n_bootstrap y_true.length
              (npSeed random_state)).1 ((1 - confidence) / 2 * 100),
          percentile
            (bootLoop (fprBootScore y_true y_pred) n_bootstrap y_true.length
              (npSeed random_state)).1 ((1 - (1 - confidence) / 2) * 100)),
         (bootLoop (fprBootScore y_true y_pred) n_bootstrap y_true.length
           (npSeed random_state)).2)

/-- `calculate_precision_recall_with_ci` (lines 284-336): one bootstrap loop
scoring each shared resample by both precision and recall; the result pairs
the `(point, ci_lower, ci_upper)` triples for precision and recall.  The
source itself only validates non-emptiness; the length-mismatch failure is
sklearn's own consistency check inside `precision_score`. -/
def calculate_precision_recall_with_ci (s : Nat) (y_true y_pred : List Bool)
    (confidence : ℚ) (n_bootstrap : Nat) (random_state : Nat) :
    Except MErr (((ℚ × ℚ × ℚ) × (ℚ × ℚ × ℚ)) × Nat) :=
  if y_true.length = 0 ∨ y_pred.length = 0 then .error .emptyInput
  else if y_true.length ≠ y_pred.length then .error .lengthMismatch
  else
    .ok (((precisionScore y_true y_pred,
           percentile
             ((bootLoop (precRecallBootScore y_true y_pred) n_bootstrap
               y_true.length (npSeed random_state)).1.map Prod.fst)
             ((1 - confidence) / 2 * 100),
           percentile
             ((bootLoop (precRecallBootScore y_true y_pred) n_bootstrap
               y_true.length (npSeed random_state)).1.map Prod.fst)
             ((1 - (1 - confidence) / 2) * 100)),
          (recallScore y_true y_pred,
           percentile
             ((bootLoop (precRecallBootScore y_true y_pred) n_bootstrap
               y_true.length (npSeed random_state)).1.map Prod.snd)
             ((1 - confidence) / 2 * 100),
           percentile
             ((bootLoop (precRecallBootScore y_true y_pred) n_bootstrap
               y_true.length (npSeed random_state)).1.map Prod.snd)
             ((1 - (1 - confidence) / 2) * 100))),
         (bootLoop (precRecallBootScore y_true y_pred) n_bootstrap
           y_true.length (npSeed random_state)).2)

/-- `sklearn.metrics.roc_auc_score` for binary labels: the ties-adjusted
rank statistic, pairs of a positive and a negative scored 1, 1/2 or 0. -/
def aucRoc (yt : List Bool) (scores : List ℚ) : ℚ :=
  let pairs := yt.zip scores
  let pos := (pairs.filter (fun p => p.1)).map Prod.snd
  let neg := (pairs.filter (fun p => !p.1)).map Prod.snd
  (pos.map (fun a =>
    (neg.map (fun b => if b < a then (1 : ℚ) else if b = a then 1 / 2 else 0)).sum)).sum /
    ((pos.length : ℚ) * (neg.length : ℚ))

/-- The warnings `calculate_all_performance_metrics` can emit through the
structured logger, in source order. -/
inductive Warning where
  | smallSampleSize
  | aucCalculationFailed
  | metricsBelowThreshold
deriving DecidableEq

/-- `calculate_all_performance_metrics` (lines 339-451): empty-dataset
validation, the three bootstrap calls threaded through the shared generator
state, the confusion matrix, the optional AUC (computed only when scores are
supplied and both classes occur; a sklearn failure inside the `try` becomes a
warning), the assembled snapshot, and the governance log check against the
module defaults.  Returns the snapshot together with the emitted warnings
and the final generator state. -/
def calculate_all_performance_metrics (s : Nat) (y_true y_pred : List Bool)
    (y_scores : Option (List ℚ)) (confidence : ℚ) (n_bootstrap : Nat)
    (random_state : Nat) :
    Except MErr (PerformanceMetrics × List Warning × Nat) :=
  if y_true.length = 0 then .error .emptyDataset
  else
    match calculate_f1_with_ci s y_true y_pred confidence n_bootstrap random_state with
    | .error e => .error e
    | .ok ((f1, f1lo, f1hi), s1) =>
      match calculate_fpr_with_ci s1 y_true y_pred confidence n_bootstrap random_state with
      | .error e => .error e
      | .ok ((fprv, fprlo, fprhi), s2) =>
        match calculate_precision_recall_with_ci s2 y_true y_pred confidence
            n_bootstrap random_state with
        | .error e => .error e
        | .ok (((prec, preclo, prechi), (rcl, rcllo, rclhi)), s3) =>
          let aucPair : Option ℚ × List Warning :=
            match y_scores with
            | none => (none, [])
            | some sc =>
              if y_true.any id && y_true.any (fun b => !b) then
                if sc.length = y_true.length then (some (aucRoc y_true sc), [])
                else (none, [Warning.aucCalculationFailed])
              else (none, [])
          let m : PerformanceMetrics :=
            { f1_score := f1, f1_ci_lower := f1lo, f1_ci_upper := f1hi,
              fpr := fprv, fpr_ci_lower := fprlo, fpr_ci_upper := fprhi,
              precision := prec, precision_ci_lower := preclo,
              precision_ci_upper := prechi,
              «recall» := rcl, recall_ci_lower := rcllo, recall_ci_upper := rclhi,
              true_positives := countTP y_true y_pred,
              false_positives := countFP y_true y_pred,
              true_negatives := countTN y_true y_pred,
              false_negatives := countFN y_true y_pred,
              auc_roc := aucPair.1, total_samples := y_true.length }
          let warns : List Warning :=
            (if y_true.length < 30 then [Warning.smallSampleSize] else []) ++
            aucPair.2 ++
            (if (m.meets_deployment_thresholds MIN_F1_SCORE MAX_FPR).1 then []
             else [Warning.metricsBelowThreshold])
          .ok (m, warns, s3)

/-- The comparison dictionary built by `compare_metrics` (lines 500-510),
with Python's `None` for the relative change at `val1 == 0` as `Option`. -/
structure DegradationResult where
  metric_name : String
  metrics1_value : ℚ
  metrics1_ci : ℚ × ℚ
  metrics2_value : ℚ
  metrics2_ci : ℚ × ℚ
  absolute_difference : ℚ
  relative_change : Option ℚ
  confidence_intervals_overlap : Bool
  significant_degradation : Bool
deriving DecidableEq

/-- `compare_metrics` (lines 454-510): for `'f1_score'` degradation means the
candidate CI upper bound is strictly below the baseline CI lower bound and
the candidate point value is strictly below the baseline value; for `'fpr'`
the mirror-image condition; any other metric name raises. -/
def compare_metrics (metrics1 metrics2 : PerformanceMetrics)
    (metric_name : String) : Except MErr DegradationResult :=
  if metric_name = "f1_score" then
    .ok { metric_name := metric_name,
          metrics1_value := metrics1.f1_score,
          metrics1_ci := (metrics1.f1_ci_lower, metrics1.f1_ci_upper),
          metrics2_value := metrics2.f1_score,
          metrics2_ci := (metrics2.f1_ci_lower, metrics2.f1_ci_upper),
          absolute_difference := |metrics2.f1_score - metrics1.f1_score|,
          relative_change :=
            if metrics1.f1_score ≠ 0 then
              some ((metrics2.f1_score - metrics1.f1_score) / metrics1.f1_score)
            else none,
          confidence_intervals_overlap :=
            !(decide (metrics2.f1_ci_upper < metrics1.f1_ci_lower) ||
              decide (metrics2.f1_ci_lower > metrics1.f1_ci_upper)),
          significant_degradation :=
            decide (metrics2.f1_ci_upper < metrics1.f1_ci_lower) &&
            decide (metrics2.f1_score < metrics1.f1_score) }
  else if metric_name = "fpr" then
    .ok { metric_name := metric_name,
          metrics1_value := metrics1.fpr,
          metrics1_ci := (metrics1.fpr_ci_lower, metrics1.fpr_ci_upper),
          metrics2_value := metrics2.fpr,
          metrics2_ci := (metrics2.fpr_ci_lower, metrics2.fpr_ci_upper),
          absolute_difference := |metrics2.fpr - metrics1.fpr|,
          relative_change :=
            if metrics1.fpr ≠ 0 then
              some ((metrics2.fpr - metrics1.fpr) / metrics1.fpr)
            else none,
          confidence_intervals_overlap :=
            !(decide (metrics2.fpr_ci_upper < metrics1.fpr_ci_lower) ||
              decide (metrics2.fpr_ci_lower > metrics1.fpr_ci_upper)),
          significant_degradation :=
            decide (metrics2.fpr_ci_lower > metrics1.fpr_ci_upper) &&
            decide (metrics2.fpr > metrics1.fpr) }
  else .error (.unknownMetric metric_name)

/-- Python's banker's rounding of a rational to the nearest integer:
round-half-to-even, as `round` does on exact halves. -/
def pyRoundHalfEven (x : ℚ) : ℤ :=
  if x - (⌊x⌋ : ℚ) < 1 / 2 then ⌊x⌋
  else if x - (⌊x⌋ : ℚ) > 1 / 2 then ⌊x⌋ + 1
  else if ⌊x⌋ % 2 = 0 then ⌊x⌋ else ⌊x⌋ + 1

/-- Python's `round(x, ndigits)` modelled in exact arithmetic. -/
def pyRound (x : ℚ) (ndigits : Nat) : ℚ :=
  (pyRoundHalfEven (x * 10 ^ ndigits) : ℚ) / 10 ^ ndigits

/-- JSON-serializable values appearing in `to_dict`. -/
inductive DVal where
  | num (q : ℚ)
  | nat (n : Nat)
  | null
deriving DecidableEq

/-- `PerformanceMetrics.to_dict` (lines 102-123).  The `auc_roc` entry
reproduces the Python truthiness test `round(self.auc_roc, 4) if
self.auc_roc else None`: both `None` and an exact `0.0` serialize as null. -/
def PerformanceMetrics.to_dict (m : PerformanceMetrics) : List (String × DVal) :=
  [("f1_score", DVal.num (pyRound m.f1_score 4)),
   ("f1_ci_lower", DVal.num (pyRound m.f1_ci_lower 4)),
   ("f1_ci_upper", DVal.num (pyRound m.f1_ci_upper 4)),
   ("fpr", DVal.num (pyRound m.fpr 4)),
   ("fpr_ci_lower", DVal.num (pyRound m.fpr_ci_lower 4)),
   ("fpr_ci_upper", DVal.num (pyRound m.fpr_ci_upper 4)),
   ("precision", DVal.num (pyRound m.precision 4)),
   ("precision_ci_lower", DVal.num (pyRound m.precision_ci_lower 4)),
   ("precision_ci_upper", DVal.num (pyRound m.precision_ci_upper 4)),
   ("recall", DVal.num (pyRound m.«recall» 4)),
   ("recall_ci_lower", DVal.num (pyRound m.recall_ci_lower 4)),
   ("recall_ci_upper", DVal.num (pyRound m.recall_ci_upper 4)),
   ("true_positives", DVal.nat m.true_positives),
   ("false_positives", DVal.nat m.false_positives),
   ("true_negatives", DVal.nat m.true_negatives),
   ("false_negatives", DVal.nat m.false_negatives),
   ("auc_roc",
     match m.auc_roc with
     | some a => if a ≠ 0 then DVal.num (pyRound a 4) else DVal.null
     | none => DVal.null),
   ("total_samples", DVal.nat m.total_samples)]

/-- Division instrumented for IEEE trouble: a zero denominator yields `none`
(the NaN/infinity a float division would produce) and `none` propagates. -/
def nDiv : Option ℚ → Option ℚ → Option ℚ
  | some a, some b => if b = 0 then none else some (a / b)
  | _, _ => none

/-- NaN-instrumented `precision_score`: same guard structure as
`precisionScore`, with the division tracked by `nDiv`. -/
def precisionScoreN (yt yp : List Bool) : Option ℚ :=
  if countTP yt yp + countFP yt yp = 0 then some 0
  else nDiv (some (countTP yt yp : ℚ)) (some ((countTP yt yp : ℚ) + (countFP yt yp : ℚ)))

/-- NaN-instrumented `recall_score`. -/
def recallScoreN (yt yp : List Bool) : Option ℚ :=
  if countTP yt yp + countFN yt yp = 0 then some 0
  else nDiv (some (countTP yt yp : ℚ)) (some ((countTP yt yp : ℚ) + (countFN yt yp : ℚ)))

/-- NaN-instrumented `f1_score`: any NaN in precision or recall propagates;
the final division is tracked by `nDiv`. -/
def f1ScoreN (yt yp : List Bool) : Option ℚ :=
  match precisionScoreN yt yp, recallScoreN yt yp with
  | some p, some r =>
    if p + r = 0 then some 0 else nDiv (some (2 * p * r)) (some (p + r))
  | _, _ => none

/-- NaN-instrumented per-draw F1 bootstrap body. -/
def f1BootScoreN (yt yp : List Bool) (idxs : List Nat) : Option ℚ :=
  let ytb := resample yt idxs
  let ypb := resample yp idxs
  if ypb.count true = 0 ∨ ytb.count true = 0 then some 0 else f1ScoreN ytb ypb

/-- NaN-instrumented per-draw FPR bootstrap body. -/
def fprBootScoreN (yt yp : List Bool) (idxs : List Nat) : Option ℚ :=
  let ytb := resample yt idxs
  let ypb := resample yp idxs
  if countFP ytb ypb + countTN ytb ypb = 0 then some 0
  else nDiv (some (countFP ytb ypb : ℚ))
    (some ((countFP ytb ypb : ℚ) + (countTN ytb ypb : ℚ)))

/-- NaN-instrumented per-draw precision/recall bootstrap body. -/
def precRecallBootScoreN (yt yp : List Bool) (idxs : List Nat) :
    Option ℚ × Option ℚ :=
  let ytb := resample yt idxs
  let ypb := resample yp idxs
  (precisionScoreN ytb ypb, recallScoreN ytb ypb)

/-- Collect a list of possibly-NaN values: any NaN poisons the whole list,
as it would poison a numpy percentile. -/
def seqOption : List (Option ℚ) → Option (List ℚ)
  | [] => some []
  | none :: _ => none
  | some q :: rest => (seqOption rest).map (fun l => q :: l)

/-- NaN-instrumented percentile: defined only when no score is NaN. -/
def percentileN (xs : List (Option ℚ)) (p : ℚ) : Option ℚ :=
  (seqOption xs).map (fun l => percentile l p)

/-- NaN-instrumented `calculate_f1_with_ci`: identical control flow, with
every ratio tracked through `Option`. -/
def calculate_f1_with_ciN (s : Nat) (y_true y_pred : List Bool)
    (confidence : ℚ) (n_bootstrap : Nat) (random_state : Nat) :
    Except MErr ((Option ℚ × Option ℚ × Option ℚ) × Nat) :=
  if y_true.length = 0 ∨ y_pred.length = 0 then .error .emptyInput
  else if y_true.length ≠ y_pred.length then .error .lengthMismatch
  else
    .ok ((f1ScoreN y_true y_pred,
          percentileN
            (bootLoop (f1BootScoreN y_true y_pred) n_bootstrap y_true.length
              (npSeed random_state)).1 ((1 - confidence) / 2 * 100),
          percentileN
            (bootLoop (f1BootScoreN y_true y_pred) n_bootstrap y_true.length
              (npSeed random_state)).1 ((1 - (1 - confidence) / 2) * 100)),
         (bootLoop (f1BootScoreN y_true y_pred) n_bootstrap y_true.length
           (npSeed random_state)).2)

/-- NaN-instrumented `calculate_fpr_with_ci`. -/
def calculate_fpr_with_ciN (s : Nat) (y_true y_pred : List Bool)
    (confidence : ℚ) (n_bootstrap : Nat) (random_state : Nat) :
    Except MErr ((Option ℚ × Option ℚ × Option ℚ) × Nat) :=
  if y_true.length = 0 ∨ y_pred.length = 0 then .error .emptyInput
  else if y_true.length ≠ y_pred.length then .error .lengthMismatch
  else if countFP y_true y_pred + countTN y_true y_pred = 0 then
    .ok ((some 0, some 0, some 0), s)
  else
    .ok ((nDiv (some (countFP y_true y_pred : ℚ))
            (some ((countFP y_true y_pred : ℚ) + (countTN y_true y_pred : ℚ))),
          percentileN
            (bootLoop (fprBootScoreN y_true y_pred) n_bootstrap y_true.length
              (npSeed random_state)).1 ((1 - confidence) / 2 * 100),
          percentileN
            (bootLoop (fprBootScoreN y_true y_pred) n_bootstrap y_true.length
              (npSeed random_state)).1 ((1 - (1 - confidence) / 2) * 100)),
         (bootLoop (fprBootScoreN y_true y_pred) n_bootstrap y_true.length
           (npSeed random_state)).2)

/-- NaN-instrumented `calculate_precision_recall_with_ci`. -/
def calculate_precision_recall_with_ciN (s : Nat) (y_true y_pred : List Bool)
    (confidence : ℚ) (n_bootstrap : Nat) (random_state : Nat) :
    Except MErr (((Option ℚ × Option ℚ × Option ℚ) ×
      (Option ℚ × Option ℚ × Option ℚ)) × Nat) :=
  if y_true.length = 0 ∨ y_pred.length = 0 then .error .emptyInput
  else if y_true.length ≠ y_pred.length then .error .lengthMismatch
  else
    .ok (((precisionScoreN y_true y_pred,
           percentileN
             ((bootLoop (precRecallBootScoreN y_true y_pred) n_bootstrap
               y_true.length (npSeed random_state)).1.map Prod.fst)
             ((1 - confidence) / 2 * 100),
           percentileN
             ((bootLoop (precRecallBootScoreN y_true y_pred) n_bootstrap
               y_true.length (npSeed random_state)).1.map Prod.fst)
             ((1 - (1 - confidence) / 2) * 100)),
          (recallScoreN y_true y_pred,
           percentileN
             ((bootLoop (precRecallBootScoreN y_true y_pred) n_bootstrap
               y_true.length (npSeed random_state)).1.map Prod.snd)
             ((1 - confidence) / 2 * 100),
           percentileN
             ((bootLoop (precRecallBootScoreN y_true y_pred) n_bootstrap
               y_true.length (npSeed random_state)).1.map Prod.snd)
             ((1 - (1 - confidence) / 2) * 100))),
         (bootLoop (precRecallBootScoreN y_true y_pred) n_bootstrap
           y_true.length (npSeed random_state)).2)

/-- The CI-ordering invariant on one `(value, ci_lower, ci_upper)` triple. -/
def ciBounds3 (t : ℚ × ℚ × ℚ) : Prop :=
  0 ≤ t.2.1 ∧ t.2.1 ≤ t.2.2 ∧ t.2.2 ≤ 1

/-- The CI-ordering invariant on a single-metric bootstrap result: the call
must have succeeded and its bounds must be ordered inside `[0, 1]`. -/
def ciOkE : Except MErr ((ℚ × ℚ × ℚ) × Nat) → Prop
  | .ok (t, _) => ciBounds3 t
  | .error _ => False

/-- The CI-ordering invariant on a precision/recall bootstrap result. -/
def ciOkPR : Except MErr (((ℚ × ℚ × ℚ) × (ℚ × ℚ × ℚ)) × Nat) → Prop
  | .ok ((t1, t2), _) => ciBounds3 t1 ∧ ciBounds3 t2
  | .error _ => False

/-- What a successful `calculate_all_performance_metrics` run reports about
sample size `N`: the `small_sample_size` warning is emitted exactly when
`N < 30`, and the snapshot records `N` in `total_samples`. -/
def warnFlagLaw (N : Nat) :
    Except MErr (PerformanceMetrics × List Warning × Nat) → Prop
  | .ok (m, w, _) => (Warning.smallSampleSize ∈ w ↔ N < 30) ∧ m.total_samples = N
  | .error _ => False

/-- The degradation rule `compare_metrics` actually implements for
`'f1_score'`: strict one-sided CI separation on the degrading side, and a
strictly worse point value; CI overlap therefore forces `false`. -/
def sdLawF1 (m1 m2 : PerformanceMetrics) :
    Except MErr DegradationResult → Prop
  | .ok r =>
    r.significant_degradation =
      (decide (m2.f1_ci_upper < m1.f1_ci_lower) &&
       decide (m2.f1_score < m1.f1_score)) ∧
    r.confidence_intervals_overlap =
      !(decide (m2.f1_ci_upper < m1.f1_ci_lower) ||
        decide (m2.f1_ci_lower > m1.f1_ci_upper)) ∧
    (r.confidence_intervals_overlap = true → r.significant_degradation = false)
  | .error _ => False

/-- The degradation rule `compare_metrics` actually implements for `'fpr'`. -/
def sdLawFpr (m1 m2 : PerformanceMetrics) :
    Except MErr DegradationResult → Prop
  | .ok r =>
    r.significant_degradation =
      (decide (m2.fpr_ci_lower > m1.fpr_ci_upper) &&
       decide (m2.fpr > m1.fpr)) ∧
    r.confidence_intervals_overlap =
      !(decide (m2.fpr_ci_upper < m1.fpr_ci_lower) ||
        decide (m2.fpr_ci_lower > m1.fpr_ci_upper)) ∧
    (r.confidence_intervals_overlap = true → r.significant_degradation = false)
  | .error _ => False

/-- A snapshot with every numeric field zero and no AUC, used as the base of
concrete test snapshots. -/
def baseSnap : PerformanceMetrics :=
  { f1_score := 0, f1_ci_lower := 0, f1_ci_upper := 0,
    fpr := 0, fpr_ci_lower := 0, fpr_ci_upper := 0,
    precision := 0, precision_ci_lower := 0, precision_ci_upper := 0,
    «recall» := 0, recall_ci_lower := 0, recall_ci_upper := 0,
    true_positives := 0, false_positives := 0, true_negatives := 0,
    false_negatives := 0, auc_roc := none, total_samples := 0 }

/-- Baseline snapshot for the degradation counterexample:
F1 = 0.90 with CI [0.88, 0.92]. -/
def degBaseSnap : PerformanceMetrics :=
  { baseSnap with f1_score := 9 / 10, f1_ci_lower := 22 / 25, f1_ci_upper := 23 / 25 }

/-- Candidate snapshot for the degradation counterexample: a worse point
value, F1 = 0.85, but a CI [0.93, 0.95] lying entirely above the baseline
CI, so the two intervals are disjoint on the non-degrading side.  (The spec
itself notes a point value may fall outside its own CI under resampling
variance.) -/
def degCandSnap : PerformanceMetrics :=
  { baseSnap with f1_score := 17 / 20, f1_ci_lower := 93 / 100, f1_ci_upper := 19 / 20 }

/-- C1: `meets_deployment_thresholds` checks all four governance rules
independently — point F1 at least `min_f1`, point FPR at most `max_fpr`, F1
CI lower bound at least `min_f1`, FPR CI upper bound at most `max_fpr` —
passing with an empty violation list exactly when all four hold, and
otherwise failing with one violation per failed rule in that rule order,
without short-circuiting; the module defaults are 0.85 and 0.01. -/
theorem meets_deployment_thresholds_c1 (min_f1 max_fpr : ℚ) (m : PerformanceMetrics) :
    ((m.meets_deployment_thresholds min_f1 max_fpr).1 = true ↔
      (min_f1 ≤ m.f1_score ∧ m.fpr ≤ max_fpr ∧
        min_f1 ≤ m.f1_ci_lower ∧ m.fpr_ci_upper ≤ max_fpr)) ∧
    ((m.meets_deployment_thresholds min_f1 max_fpr).1 = true ↔
      (m.meets_deployment_thresholds min_f1 max_fpr).2 = []) ∧
    ((m.meets_deployment_thresholds min_f1 max_fpr).2 =
      (if m.f1_score < min_f1 then [Violation.f1Below m.f1_score min_f1] else []) ++
      (if m.fpr > max_fpr then [Violation.fprAbove m.fpr max_fpr] else []) ++
      (if m.f1_ci_lower < min_f1 then [Violation.f1CiBelow m.f1_ci_lower min_f1] else []) ++
      (if m.fpr_ci_upper > max_fpr then [Violation.fprCiAbove m.fpr_ci_upper max_fpr] else [])) ∧
    MIN_F1_SCORE = 85 / 100 ∧ MAX_FPR = 1 / 100 := by
  refine ⟨?_, ?_, rfl, rfl, rfl⟩ <;>
  · unfold PerformanceMetrics.meets_deployment_thresholds
    by_cases h1 : m.f1_score < min_f1 <;> by_cases h2 : m.fpr > max_fpr <;>
      by_cases h3 : m.f1_ci_lower < min_f1 <;> by_cases h4 : m.fpr_ci_upper > max_fpr <;>
      simp_all [not_lt, le_of_lt]

/-- C3: `compare_metrics` raises the unsupported-metric error exactly for
metric names outside {"f1_score", "fpr"}, and succeeds for those two. -/
theorem compare_metrics_c3 (m1 m2 : PerformanceMetrics) (name : String) :
    (isOkB (compare_metrics m1 m2 name) = true ↔
      (name = "f1_score" ∨ name = "fpr")) ∧
    (compare_metrics m1 m2 name = .error (.unknownMetric name) ↔
      ¬(name = "f1_score" ∨ name = "fpr")) := by
  unfold compare_metrics
  by_cases h1 : name = "f1_score" <;> by_cases h2 : name = "fpr" <;>
    simp [h1, h2, isOkB]

/-- C5: for a fixed seed and fixed inputs, the three bootstrap CI functions
are deterministic functions of `(input, seed, confidence, n_bootstrap)`:
each call reseeds the generator from `random_state`, so the
`(point, ci_lower, ci_upper)` values do not depend on the ambient generator
state, hence repeated invocations return identical values and draw identical
resample-index sequences. -/
theorem bootstrap_deterministic_c5 (s1 s2 : Nat) (yt yp : List Bool)
    (conf : ℚ) (nb seed : Nat) :
    (calculate_f1_with_ci s1 yt yp conf nb seed).map Prod.fst =
      (calculate_f1_with_ci s2 yt yp conf nb seed).map Prod.fst ∧
    (calculate_fpr_with_ci s1 yt yp conf nb seed).map Prod.fst =
      (calculate_fpr_with_ci s2 yt yp conf nb seed).map Prod.fst ∧
    (calculate_precision_recall_with_ci s1 yt yp conf nb seed).map Prod.fst =
      (calculate_precision_recall_with_ci s2 yt yp conf nb seed).map Prod.fst := by
  refine ⟨rfl, ?_, rfl⟩
  unfold calculate_fpr_with_ci
  split_ifs <;> rfl

/-- C10: `to_dict` serializes `auc_roc` as null both when it is absent and
when it is exactly 0.0 (a legitimate AUC value), because of the Python
truthiness test; only a non-zero AUC is serialized as its rounded value. -/
theorem to_dict_auc_c10 (m : PerformanceMetrics) :
    (m.auc_roc = some 0 → m.to_dict.lookup "auc_roc" = some DVal.null) ∧
    (m.auc_roc = none → m.to_dict.lookup "auc_roc" = some DVal.null) ∧
    (∀ a : ℚ, m.auc_roc = some a → a ≠ 0 →
      m.to_dict.lookup "auc_roc" = some (DVal.num (pyRound a 4))) := by
  refine ⟨fun h => ?_, fun h => ?_, fun a h ha => ?_⟩
  · simp [PerformanceMetrics.to_dict, List.lookup, h]
  · simp [PerformanceMetrics.to_dict, List.lookup, h]
  · simp [PerformanceMetrics.to_dict, List.lookup, h, ha]

/-- C10 witness: a snapshot whose AUC is exactly 0.0 serializes it as null,
and one with AUC 0.5 serializes the rounded value. -/
theorem to_dict_auc_c10_witness :
    ({ baseSnap with auc_roc := some 0 } : PerformanceMetrics).to_dict.lookup
      "auc_roc" = some DVal.null ∧
    ({ baseSnap with auc_roc := some (1 / 2) } : PerformanceMetrics).to_dict.lookup
      "auc_roc" = some (DVal.num (pyRound (1 / 2) 4)) :=
  ⟨(to_dict_auc_c10 _).1 rfl,
   (to_dict_auc_c10 _).2.2 (1 / 2) rfl (by norm_num)⟩

/-- C2 counterexample: a baseline with F1 0.90, CI [0.88, 0.92] and a
candidate with the worse F1 0.85 but CI [0.93, 0.95]: the confidence
intervals do not overlap and the candidate point value is lower, yet
`compare_metrics` reports `significant_degradation = False`, refuting
`significant_degradation = NOT ci_overlap AND candidate worse`. -/
theorem compare_metrics_c2_counterexample :
    ((compare_metrics degBaseSnap degCandSnap "f1_score").toOption.map
      (fun r => (r.confidence_intervals_overlap, r.significant_degradation))) =
      some (false, false) ∧
    degCandSnap.f1_score < degBaseSnap.f1_score := by
  constructor
  · simp only [compare_metrics, if_pos rfl, Except.toOption, Option.map_some]
    norm_num [degCandSnap, degBaseSnap, baseSnap]
  · norm_num [degCandSnap, degBaseSnap, baseSnap]

/-- C2 as amended: `significant_degradation` holds exactly when the
candidate CI lies strictly on the degrading side of the baseline CI
(`candidate_ci_upper < baseline_ci_lower` for F1,
`candidate_ci_lower > baseline_ci_upper` for FPR) and the candidate point
value is strictly worse; in particular CI overlap still forces
`significant_degradation = false`. -/
theorem compare_metrics_c2_amended (m1 m2 : PerformanceMetrics) :
    sdLawF1 m1 m2 (compare_metrics m1 m2 "f1_score") ∧
    sdLawFpr m1 m2 (compare_metrics m1 m2 "fpr") := by
  constructor
  · simp only [compare_metrics, if_pos rfl]
    refine ⟨rfl, rfl, fun h => ?_⟩
    simp only [Bool.not_eq_true', Bool.or_eq_false_iff, decide_eq_false_iff_not] at h
    simp [h.1]
  · have hne : ("fpr" : String) ≠ "f1_score" := by decide
    simp only [compare_metrics, if_neg hne, if_pos rfl]
    refine ⟨rfl, rfl, fun h => ?_⟩
    simp only [Bool.not_eq_true', Bool.or_eq_false_iff, decide_eq_false_iff_not] at h
    simp [h.2]

/-- When every ground-truth label is positive, the dataset has no negatives:
`FP + TN = 0`. -/
theorem countFP_add_countTN_eq_zero (yt yp : List Bool)
    (h : ∀ b ∈ yt, b = true) : countFP yt yp + countTN yt yp = 0 := by
  have hz : ∀ q ∈ yt.zip yp, q.1 = true := by
    rintro ⟨a, b⟩ hm
    exact h a (List.of_mem_zip hm).1
  unfold countFP countTN
  rw [Nat.add_eq_zero]
  constructor <;>
  · rw [List.length_eq_zero, List.filter_eq_nil_iff]
    intro q hq
    simp [hz q hq]

/-- C7: on a full dataset with zero negatives (every ground-truth label
positive), `calculate_fpr_with_ci` returns exactly `(0.0, 0.0, 0.0)` without
raising, skipping the bootstrap entirely — the generator state is returned
untouched, the early return firing before `np.random.seed`. -/
theorem calculate_fpr_all_positive_c7 (s : Nat) (yt yp : List Bool)
    (conf : ℚ) (nb seed : Nat)
    (h1 : yt ≠ []) (h2 : yt.length = yp.length) (h3 : ∀ b ∈ yt, b = true) :
    calculate_fpr_with_ci s yt yp conf nb seed = .ok ((0, 0, 0), s) := by
  have hl : yt.length ≠ 0 := fun hh => h1 (List.length_eq_zero.mp hh)
  unfold calculate_fpr_with_ci
  rw [if_neg (by push_neg; exact ⟨hl, h2 ▸ hl⟩), if_neg (by simp [h2]),
    if_pos (countFP_add_countTN_eq_zero yt yp h3)]

/-- C7 witness: an all-positive two-sample dataset yields `(0, 0, 0)` and
leaves the ambient generator state 7 unchanged. -/
theorem calculate_fpr_all_positive_c7_witness :
    calculate_fpr_with_ci 7 [true, true] [true, false] (19 / 20) 5 42 =
      .ok ((0, 0, 0), 7) :=
  calculate_fpr_all_positive_c7 7 [true, true] [true, false] (19 / 20) 5 42
    (by decide) (by decide) (by decide)

/-- C4 counterexample: on `y_true = [true]`, `y_pred = []` the two sequences
have different lengths, but the error raised is the empty-input error from
`calculate_f1_with_ci` (line 153 checks emptiness of either array before the
length comparison), not the length-mismatch error the claim requires. -/
theorem calculate_all_validation_c4_counterexample :
    calculate_all_performance_metrics 0 [true] [] none (19 / 20) 1 42 =
      .error .emptyInput ∧ MErr.emptyInput ≠ MErr.lengthMismatch := by
  exact ⟨rfl, by decide⟩

/-- C4 as amended: `calculate_all_performance_metrics` fails immediately with
the empty-dataset error on `N = 0`; on misaligned inputs with an empty
prediction array the empty-input error fires instead of the length-mismatch
error; on misaligned inputs with both arrays non-empty the length-mismatch
error fires; and on every non-empty aligned input it returns a snapshot
rather than raising. -/
theorem calculate_all_validation_c4 (s : Nat) (yt yp : List Bool)
    (ys : Option (List ℚ)) (conf : ℚ) (nb seed : Nat) :
    (yt = [] →
      calculate_all_performance_metrics s yt yp ys conf nb seed =
        .error .emptyDataset) ∧
    (yt ≠ [] → yp = [] →
      calculate_all_performance_metrics s yt yp ys conf nb seed =
        .error .emptyInput) ∧
    (yt ≠ [] → yp ≠ [] → yt.length ≠ yp.length →
      calculate_all_performance_metrics s yt yp ys conf nb seed =
        .error .lengthMismatch) ∧
    (yt ≠ [] → yt.length = yp.length →
      isOkB (calculate_all_performance_metrics s yt yp ys conf nb seed) = true) := by
  refine ⟨fun h => ?_, fun h1 h2 => ?_, fun h1 h2 h3 => ?_, fun h1 h2 => ?_⟩
  · simp [calculate_all_performance_metrics, h]
  · have hl : yt.length ≠ 0 := fun hh => h1 (List.length_eq_zero.mp hh)
    simp [calculate_all_performance_metrics, calculate_f1_with_ci, h2, hl]
  · have hl : yt.length ≠ 0 := fun hh => h1 (List.length_eq_zero.mp hh)
    have hl2 : yp.length ≠ 0 := fun hh => h2 (List.length_eq_zero.mp hh)
    simp [calculate_all_performance_metrics, calculate_f1_with_ci, hl, hl2, h3]
  · have hl : yt.length ≠ 0 := fun hh => h1 (List.length_eq_zero.mp hh)
    have hl2 : yp.length ≠ 0 := h2 ▸ hl
    have hne : ¬(yt.length = 0 ∨ yp.length = 0) := by push_neg; exact ⟨hl, hl2⟩
    have e1 : ∃ t st, calculate_f1_with_ci s yt yp conf nb seed = .ok (t, st) := by
      unfold calculate_f1_with_ci
      rw [if_neg hne, if_neg (by simp [h2])]
      exact ⟨_, _, rfl⟩
    obtain ⟨⟨f1v, f1l, f1h⟩, st1, e1⟩ := e1
    have e2 : ∀ st : Nat, ∃ t st2,
        calculate_fpr_with_ci st yt yp conf nb seed = .ok (t, st2) := by
      intro st
      unfold calculate_fpr_with_ci
      rw [if_neg hne, if_neg (by simp [h2])]
      by_cases hc : countFP yt yp + countTN yt yp = 0
      · rw [if_pos hc]; exact ⟨_, _, rfl⟩
      · rw [if_neg hc]; exact ⟨_, _, rfl⟩
    obtain ⟨⟨fv, fl, fh⟩, st2, e2⟩ := e2 st1
    have e3 : ∀ st : Nat, ∃ t st2,
        calculate_precision_recall_with_ci st yt yp conf nb seed = .ok (t, st2) := by
      intro st
      unfold calculate_precision_recall_with_ci
      rw [if_neg hne, if_neg (by simp [h2])]
      exact ⟨_, _, rfl⟩
    obtain ⟨⟨⟨p1, p2, p3⟩, r1, r2, r3⟩, st3, e3⟩ := e3 st2
    simp [calculate_all_performance_metrics, hl, e1, e2, e3, isOkB]

/-- C4 witness: the four validation regimes at concrete inputs — empty
dataset, empty predictions, misaligned non-empty arrays, and a valid
one-sample dataset. -/
theorem calculate_all_validation_c4_witness :
    calculate_all_performance_metrics 0 ([] : List Bool) [] none (19 / 20) 1 42 =
      .error .emptyDataset ∧
    calculate_all_performance_metrics 0 [true] [] none (19 / 20) 1 42 =
      .error .emptyInput ∧
    calculate_all_performance_metrics 0 [true] [true, false] none (19 / 20) 1 42 =
      .error .lengthMismatch ∧
    isOkB (calculate_all_performance_metrics 0 [true] [false] none (19 / 20) 1 42) =
      true :=
  ⟨(calculate_all_validation_c4 0 [] [] none (19 / 20) 1 42).1 rfl,
   (calculate_all_validation_c4 0 [true] [] none (19 / 20) 1 42).2.1 (by decide) rfl,
   (calculate_all_validation_c4 0 [true] [true, false] none (19 / 20) 1 42).2.2.1
     (by decide) (by decide) (by decide),
   (calculate_all_validation_c4 0 [true] [false] none (19 / 20) 1 42).2.2.2
     (by decide) rfl⟩

/-- C8 as amended: on every valid input, `calculate_all_performance_metrics`
completes and emits the `small_sample_size` warning through the logger
exactly when `N < 30` (no warning for `N ≥ 30`); the returned snapshot
itself carries no low-sample flag, but records `total_samples = N` for
downstream consumers. -/
theorem low_sample_warning_c8 (s : Nat) (yt yp : List Bool)
    (ys : Option (List ℚ)) (conf : ℚ) (nb seed : Nat)
    (h1 : yt ≠ []) (h2 : yt.length = yp.length) :
    warnFlagLaw yt.length
      (calculate_all_performance_metrics s yt yp ys conf nb seed) := by
  have hl : yt.length ≠ 0 := fun hh => h1 (List.length_eq_zero.mp hh)
  have hl2 : yp.length ≠ 0 := h2 ▸ hl
  have hne : ¬(yt.length = 0 ∨ yp.length = 0) := by push_neg; exact ⟨hl, hl2⟩
  have e1 : ∃ t st, calculate_f1_with_ci s yt yp conf nb seed = .ok (t, st) := by
    unfold calculate_f1_with_ci
    rw [if_neg hne, if_neg (by simp [h2])]
    exact ⟨_, _, rfl⟩
  obtain ⟨⟨f1v, f1l, f1h⟩, st1, e1⟩ := e1
  have e2 : ∀ st : Nat, ∃ t st2,
      calculate_fpr_with_ci st yt yp conf nb seed = .ok (t, st2) := by
    intro st
    unfold calculate_fpr_with_ci
    rw [if_neg hne, if_neg (by simp [h2])]
    by_cases hc : countFP yt yp + countTN yt yp = 0
    · rw [if_pos hc]; exact ⟨_, _, rfl⟩
    · rw [if_neg hc]; exact ⟨_, _, rfl⟩
  obtain ⟨⟨fv, fl, fh⟩, st2, e2⟩ := e2 st1
  have e3 : ∀ st : Nat, ∃ t st2,
      calculate_precision_recall_with_ci st yt yp conf nb seed = .ok (t, st2) := by
    intro st
    unfold calculate_precision_recall_with_ci
    rw [if_neg hne, if_neg (by simp [h2])]
    exact ⟨_, _, rfl⟩
  obtain ⟨⟨⟨p1, p2, p3⟩, r1, r2, r3⟩, st3, e3⟩ := e3 st2
  simp only [calculate_all_performance_metrics, hl, if_neg, ite_false, e1, e2, e3]
  unfold warnFlagLaw
  constructor
  · by_cases hN : yt.length < 30 <;> rcases ys with _ | sc <;>
      simp [hN, List.mem_append] <;> split_ifs <;> simp
  · rfl

/-- C8 witness: a valid two-sample dataset completes with the small-sample
warning present and `total_samples = 2`. -/
theorem low_sample_warning_c8_witness :
    warnFlagLaw 2
      (calculate_all_performance_metrics 0 [true, false] [true, false] none
        (19 / 20) 1 42) :=
  low_sample_warning_c8 0 [true, false] [true, false] none (19 / 20) 1 42
    (by decide) rfl

/-- C8 counterexample: a concrete valid run with `N = 2 < 30` completes and
emits the `small_sample_size` warning, yet the returned snapshot's full
serialized record contains no `low_sample_size` entry at all — the flag
lives in the log stream, not on the snapshot. -/
theorem low_sample_warning_c8_counterexample :
    ((calculate_all_performance_metrics 0 [true, false] [true, false] none
        (19 / 20) 1 42).toOption.map
      (fun r => (decide (Warning.smallSampleSize ∈ r.2.1),
                 (PerformanceMetrics.to_dict r.1).lookup "low_sample_size",
                 (PerformanceMetrics.to_dict r.1).map Prod.fst))) =
    some (true, none,
      ["f1_score", "f1_ci_lower", "f1_ci_upper", "fpr", "fpr_ci_lower",
       "fpr_ci_upper", "precision", "precision_ci_lower", "precision_ci_upper",
       "recall", "recall_ci_lower", "recall_ci_upper", "true_positives",
       "false_positives", "true_negatives", "false_negatives", "auc_roc",
       "total_samples"]) := by decide

/-- The guarded precision never divides by zero: the instrumented version is
the plain one. -/
theorem precisionScoreN_eq (yt yp : List Bool) :
    precisionScoreN yt yp = some (precisionScore yt yp) := by
  unfold precisionScoreN precisionScore
  by_cases h : countTP yt yp + countFP yt yp = 0
  · simp [h]
  · have hc : ((countTP yt yp : ℚ) + (countFP yt yp : ℚ)) ≠ 0 := by
      have := Nat.cast_ne_zero (R := ℚ).mpr h
      push_cast at this
      exact this
    simp [h, nDiv, hc]

/-- The guarded recall never divides by zero. -/
theorem recallScoreN_eq (yt yp : List Bool) :
    recallScoreN yt yp = some (recallScore yt yp) := by
  unfold recallScoreN recallScore
  by_cases h : countTP yt yp + countFN yt yp = 0
  · simp [h]
  · have hc : ((countTP yt yp : ℚ) + (countFN yt yp : ℚ)) ≠ 0 := by
      have := Nat.cast_ne_zero (R := ℚ).mpr h
      push_cast at this
      exact this
    simp [h, nDiv, hc]

/-- The guarded F1 never divides by zero. -/
theorem f1ScoreN_eq (yt yp : List Bool) :
    f1ScoreN yt yp = some (f1Score yt yp) := by
  unfold f1ScoreN f1Score
  rw [precisionScoreN_eq, recallScoreN_eq]
  by_cases h : precisionScore yt yp + recallScore yt yp = 0
  · simp [h]
  · simp [h, nDiv]

/-- The per-draw F1 bootstrap body never produces NaN. -/
theorem f1BootScoreN_eq (yt yp : List Bool) (idxs : List Nat) :
    f1BootScoreN yt yp idxs = some (f1BootScore yt yp idxs) := by
  unfold f1BootScoreN f1BootScore
  dsimp only
  split_ifs with h
  · rfl
  · exact f1ScoreN_eq _ _

/-- The per-draw FPR bootstrap body never produces NaN. -/
theorem fprBootScoreN_eq (yt yp : List Bool) (idxs : List Nat) :
    fprBootScoreN yt yp idxs = some (fprBootScore yt yp idxs) := by
  unfold fprBootScoreN fprBootScore
  dsimp only
  split_ifs with h
  · rfl
  · have hc : ((countFP (resample yt idxs) (resample yp idxs) : ℚ) +
        (countTN (resample yt idxs) (resample yp idxs) : ℚ)) ≠ 0 := by
      have := Nat.cast_ne_zero (R := ℚ).mpr h
      push_cast at this
      exact this
    simp [nDiv, hc]

/-- The per-draw precision/recall bootstrap body never produces NaN. -/
theorem precRecallBootScoreN_eq (yt yp : List Bool) (idxs : List Nat) :
    precRecallBootScoreN yt yp idxs =
      (some (precRecallBootScore yt yp idxs).1,
       some (precRecallBootScore yt yp idxs).2) := by
  unfold precRecallBootScoreN precRecallBootScore
  dsimp only
  rw [precisionScoreN_eq, recallScoreN_eq]

/-- A bootstrap loop whose body factors through `f` collects the mapped
scores and evolves the generator state identically. -/
theorem bootLoop_congr_comp {α β : Type} (score : List Nat → α)
    (scoreN : List Nat → β) (f : α → β)
    (h : ∀ idxs, scoreN idxs = f (score idxs)) :
    ∀ (k n s : Nat),
      bootLoop scoreN k n s =
        ((bootLoop score k n s).1.map f, (bootLoop score k n s).2)
  | 0, _, _ => rfl
  | k + 1, n, s => by
    simp only [bootLoop]
    rw [bootLoop_congr_comp score scoreN f h k n]
    simp [h]

/-- Sequencing a list of defined values succeeds with the values. -/
theorem seqOption_map_some (l : List ℚ) : seqOption (l.map some) = some l := by
  induction l with
  | nil => rfl
  | cons q rest ih => simp [seqOption, ih]

/-- The instrumented percentile of all-defined scores is defined. -/
theorem percentileN_map_some (l : List ℚ) (p : ℚ) :
    percentileN (l.map some) p = some (percentile l p) := by
  simp [percentileN, seqOption_map_some]

/-- Projecting the first components out of a `some`-paired score list gives
a defined percentile. -/
theorem percentileN_map_fst (l : List (ℚ × ℚ)) (p : ℚ) :
    percentileN ((l.map (fun q : ℚ × ℚ =>
      ((some q.1 : Option ℚ), (some q.2 : Option ℚ)))).map Prod.fst) p =
      some (percentile (l.map Prod.fst) p) := by
  rw [List.map_map]
  rw [show (Prod.fst ∘ fun q : ℚ × ℚ =>
    ((some q.1 : Option ℚ), (some q.2 : Option ℚ))) = some ∘ Prod.fst from rfl]
  rw [← List.map_map]
  exact percentileN_map_some _ _

/-- Projecting the second components out of a `some`-paired score list gives
a defined percentile. -/
theorem percentileN_map_snd (l : List (ℚ × ℚ)) (p : ℚ) :
    percentileN ((l.map (fun q : ℚ × ℚ =>
      ((some q.1 : Option ℚ), (some q.2 : Option ℚ)))).map Prod.snd) p =
      some (percentile (l.map Prod.snd) p) := by
  rw [List.map_map]
  rw [show (Prod.snd ∘ fun q : ℚ × ℚ =>
    ((some q.1 : Option ℚ), (some q.2 : Option ℚ))) = some ∘ Prod.snd from rfl]
  rw [← List.map_map]
  exact percentileN_map_some _ _

/-- C9: no ratio the engine produces is NaN or infinite.  Instrumenting
every division of the three bootstrap pipelines so that a zero denominator
yields `none` and `none` propagates, each pipeline returns exactly the
`some`-image of the plain pipeline on every input — in particular every
point estimate, every per-draw bootstrap score (any-index-list draws
included, covering all-positive and all-negative resamples) and both CI
bounds are defined, the zero-denominator cases being recovered locally by
the guards to the 0.0 fallback. -/
theorem no_nan_c9 (s : Nat) (yt yp : List Bool) (conf : ℚ) (nb seed : Nat) :
    calculate_f1_with_ciN s yt yp conf nb seed =
      (calculate_f1_with_ci s yt yp conf nb seed).map
        (fun x => ((some x.1.1, some x.1.2.1, some x.1.2.2), x.2)) ∧
    calculate_fpr_with_ciN s yt yp conf nb seed =
      (calculate_fpr_with_ci s yt yp conf nb seed).map
        (fun x => ((some x.1.1, some x.1.2.1, some x.1.2.2), x.2)) ∧
    calculate_precision_recall_with_ciN s yt yp conf nb seed =
      (calculate_precision_recall_with_ci s yt yp conf nb seed).map
        (fun x => (((some x.1.1.1, some x.1.1.2.1, some x.1.1.2.2),
                    (some x.1.2.1, some x.1.2.2.1, some x.1.2.2.2)), x.2)) ∧
    (∀ idxs, f1BootScoreN yt yp idxs = some (f1BootScore yt yp idxs)) ∧
    (∀ idxs, fprBootScoreN yt yp idxs = some (fprBootScore yt yp idxs)) ∧
    f1ScoreN yt yp = some (f1Score yt yp) ∧
    precisionScoreN yt yp = some (precisionScore yt yp) ∧
    recallScoreN yt yp = some (recallScore yt yp) := by
  refine ⟨?_, ?_, ?_, f1BootScoreN_eq yt yp, fprBootScoreN_eq yt yp,
    f1ScoreN_eq yt yp, precisionScoreN_eq yt yp, recallScoreN_eq yt yp⟩
  · unfold calculate_f1_with_ciN calculate_f1_with_ci
    split_ifs with h1 h2
    · rfl
    · rfl
    · rw [bootLoop_congr_comp (f1BootScore yt yp) (f1BootScoreN yt yp) some
        (f1BootScoreN_eq yt yp)]
      simp [Except.map, f1ScoreN_eq, percentileN_map_some]
  · unfold calculate_fpr_with_ciN calculate_fpr_with_ci
    split_ifs with h1 h2 h3
    · rfl
    · rfl
    · rfl
    · have hc : ((countFP yt yp : ℚ) + (countTN yt yp : ℚ)) ≠ 0 := by
        have := Nat.cast_ne_zero (R := ℚ).mpr h3
        push_cast at this
        exact this
      rw [bootLoop_congr_comp (fprBootScore yt yp) (fprBootScoreN yt yp) some
        (fprBootScoreN_eq yt yp)]
      simp [Except.map, nDiv, hc, percentileN_map_some]
  · unfold calculate_precision_recall_with_ciN calculate_precision_recall_with_ci
    split_ifs with h1 h2
    · rfl
    · rfl
    · rw [bootLoop_congr_comp (precRecallBootScore yt yp)
        (precRecallBootScoreN yt yp)
        (fun q => (some q.1, some q.2)) (precRecallBootScoreN_eq yt yp)]
      simp only [Except.map]
      rw [precisionScoreN_eq, recallScoreN_eq]
      simp only [percentileN_map_fst, percentileN_map_snd]

/-- In-range `getD` is the indexed element. -/
theorem getD_of_lt (s : List ℚ) (i : Nat) (d : ℚ) (h : i < s.length) :
    s.getD i d = s[i] := by
  simp [List.getD_eq_getElem?_getD, List.getElem?_eq_getElem h]

/-- Out-of-range `getD` is the default. -/
theorem getD_of_le (s : List ℚ) (i : Nat) (d : ℚ) (h : s.length ≤ i) :
    s.getD i d = d := by
  simp [List.getD_eq_getElem?_getD, List.getElem?_eq_none h]

/-- In a sorted list, `getD` at default 0 is monotone over in-range
indices. -/
theorem sorted_getD_mono (s : List ℚ) (hs : List.Sorted (· ≤ ·) s) {i j : Nat}
    (hij : i ≤ j) (hj : j < s.length) : s.getD i 0 ≤ s.getD j 0 := by
  have hi : i < s.length := lt_of_le_of_lt hij hj
  rw [getD_of_lt _ _ _ hi, getD_of_lt _ _ _ hj]
  rcases lt_or_eq_of_le hij with hlt | rfl
  · have := hs.rel_get_of_lt (a := ⟨i, hi⟩) (b := ⟨j, hj⟩) (Fin.mk_lt_mk.mpr hlt)
    simpa using this
  · exact le_refl _

/-- One interpolation step of `interpSorted` at integer part `i` and
fractional part `fi` is monotone in the rank, over a sorted list. -/
theorem rank_mono (s : List ℚ) (hs : List.Sorted (· ≤ ·) s) {i j : Nat}
    {fi fj : ℚ} (hfi0 : 0 ≤ fi) (hfi1 : fi ≤ 1) (hfj0 : 0 ≤ fj)
    (hij : i < j ∨ (i = j ∧ fi ≤ fj)) (hj : j < s.length) :
    s.getD i 0 + fi * (s.getD (i + 1) (s.getD i 0) - s.getD i 0) ≤
      s.getD j 0 + fj * (s.getD (j + 1) (s.getD j 0) - s.getD j 0) := by
  have hi : i < s.length := by
    rcases hij with hlt | ⟨rfl, _⟩
    · exact lt_trans hlt hj
    · exact hj
  have hbi : s.getD i 0 ≤ s.getD (i + 1) (s.getD i 0) := by
    by_cases hc : i + 1 < s.length
    · rw [getD_of_lt s (i + 1) (s.getD i 0) hc, ← getD_of_lt s (i + 1) 0 hc]
      exact sorted_getD_mono s hs (Nat.le_succ i) hc
    · rw [getD_of_le s (i + 1) (s.getD i 0) (by omega)]
  have hbj : s.getD j 0 ≤ s.getD (j + 1) (s.getD j 0) := by
    by_cases hc : j + 1 < s.length
    · rw [getD_of_lt s (j + 1) (s.getD j 0) hc, ← getD_of_lt s (j + 1) 0 hc]
      exact sorted_getD_mono s hs (Nat.le_succ j) hc
    · rw [getD_of_le s (j + 1) (s.getD j 0) (by omega)]
  rcases hij with hlt | ⟨rfl, hff⟩
  · have hi1 : i + 1 < s.length := lt_of_le_of_lt hlt hj
    have step1 : s.getD i 0 + fi * (s.getD (i + 1) (s.getD i 0) - s.getD i 0) ≤
        s.getD (i + 1) (s.getD i 0) := by
      nlinarith [mul_le_mul_of_nonneg_right hfi1 (sub_nonneg.mpr hbi)]
    have step2 : s.getD (i + 1) (s.getD i 0) ≤ s.getD j 0 := by
      rw [getD_of_lt _ _ _ hi1, ← getD_of_lt s (i + 1) 0 hi1]
      exact sorted_getD_mono s hs hlt hj
    have step3 : s.getD j 0 ≤
        s.getD j 0 + fj * (s.getD (j + 1) (s.getD j 0) - s.getD j 0) :=
      le_add_of_nonneg_right (mul_nonneg hfj0 (sub_nonneg.mpr hbj))
    linarith
  · have := mul_le_mul_of_nonneg_right hff (sub_nonneg.mpr hbi)
    linarith

/-- One interpolation step stays inside `[0, 1]` when every element does. -/
theorem rank_bounds (s : List ℚ) (h0 : ∀ q ∈ s, 0 ≤ q ∧ q ≤ 1) {i : Nat}
    {fi : ℚ} (hfi0 : 0 ≤ fi) (hfi1 : fi ≤ 1) :
    0 ≤ s.getD i 0 + fi * (s.getD (i + 1) (s.getD i 0) - s.getD i 0) ∧
      s.getD i 0 + fi * (s.getD (i + 1) (s.getD i 0) - s.getD i 0) ≤ 1 := by
  have ha : 0 ≤ s.getD i 0 ∧ s.getD i 0 ≤ 1 := by
    by_cases hc : i < s.length
    · rw [getD_of_lt _ _ _ hc]
      exact h0 _ (List.getElem_mem hc)
    · rw [getD_of_le _ _ _ (by omega)]
      norm_num
  have hb : 0 ≤ s.getD (i + 1) (s.getD i 0) ∧ s.getD (i + 1) (s.getD i 0) ≤ 1 := by
    by_cases hc : i + 1 < s.length
    · rw [getD_of_lt _ _ _ hc]
      exact h0 _ (List.getElem_mem hc)
    · rw [getD_of_le _ _ _ (by omega)]
      exact ha
  constructor <;> nlinarith [ha.1, ha.2, hb.1, hb.2,
    mul_nonneg hfi0 hb.1, mul_nonneg (sub_nonneg.mpr hfi1) ha.1,
    mul_le_mul_of_nonneg_left hb.2 hfi0,
    mul_le_mul_of_nonneg_left ha.2 (sub_nonneg.mpr hfi1)]

/-- The percentile of a list of values in `[0, 1]` lies in `[0, 1]`. -/
theorem percentile_bounds (xs : List ℚ) (p : ℚ)
    (h0 : ∀ q ∈ xs, 0 ≤ q ∧ q ≤ 1) :
    0 ≤ percentile xs p ∧ percentile xs p ≤ 1 := by
  unfold percentile interpSorted
  dsimp only
  apply rank_bounds
  · intro q hq
    exact h0 q ((List.perm_insertionSort (· ≤ ·) xs).mem_iff.mp hq)
  · exact sub_nonneg.mpr (Int.floor_le _)
  · have := Int.lt_floor_add_one (p / 100 * (((List.insertionSort (· ≤ ·) xs).length : ℚ) - 1))
    push_cast at this ⊢
    linarith

/-- The percentile is monotone in the requested percentage over `[0, 100]`. -/
theorem percentile_mono (xs : List ℚ) {p q : ℚ} (hp : 0 ≤ p) (hpq : p ≤ q)
    (hq : q ≤ 100) : percentile xs p ≤ percentile xs q := by
  unfold percentile interpSorted
  dsimp only
  by_cases hn : (List.insertionSort (· ≤ ·) xs).length = 0
  · rcases List.length_eq_zero.mp hn with hnil
    simp [hnil]
  · have hn1 : 1 ≤ (List.insertionSort (· ≤ ·) xs).length := Nat.one_le_iff_ne_zero.mpr hn
    have hnQ : (0 : ℚ) ≤ ((List.insertionSort (· ≤ ·) xs).length : ℚ) - 1 := by
      have : (1 : ℚ) ≤ ((List.insertionSort (· ≤ ·) xs).length : ℚ) := by
        exact_mod_cast hn1
      linarith
    have hx0 : 0 ≤ p / 100 * (((List.insertionSort (· ≤ ·) xs).length : ℚ) - 1) := by
      apply mul_nonneg (by positivity) hnQ
    have hxy : p / 100 * (((List.insertionSort (· ≤ ·) xs).length : ℚ) - 1) ≤
        q / 100 * (((List.insertionSort (· ≤ ·) xs).length : ℚ) - 1) := by
      apply mul_le_mul_of_nonneg_right _ hnQ
      linarith
    have hyn : q / 100 * (((List.insertionSort (· ≤ ·) xs).length : ℚ) - 1) ≤
        ((List.insertionSort (· ≤ ·) xs).length : ℚ) - 1 := by
      have hq1 : q / 100 ≤ 1 := by linarith
      nlinarith
    have hfx0 : (0 : ℤ) ≤ ⌊p / 100 * (((List.insertionSort (· ≤ ·) xs).length : ℚ) - 1)⌋ :=
      Int.floor_nonneg.mpr hx0
    have hfxy : ⌊p / 100 * (((List.insertionSort (· ≤ ·) xs).length : ℚ) - 1)⌋ ≤
        ⌊q / 100 * (((List.insertionSort (· ≤ ·) xs).length : ℚ) - 1)⌋ :=
      Int.floor_le_floor hxy
    have hfy0 : (0 : ℤ) ≤ ⌊q / 100 * (((List.insertionSort (· ≤ ·) xs).length : ℚ) - 1)⌋ :=
      le_trans hfx0 hfxy
    have hfyn : ⌊q / 100 * (((List.insertionSort (· ≤ ·) xs).length : ℚ) - 1)⌋ ≤
        ((List.insertionSort (· ≤ ·) xs).length : ℤ) - 1 := by
      have h1 : (⌊q / 100 * (((List.insertionSort (· ≤ ·) xs).length : ℚ) - 1)⌋ : ℚ) ≤
          ((((List.insertionSort (· ≤ ·) xs).length : ℤ) - 1 : ℤ) : ℚ) := by
        push_cast
        exact le_trans (Int.floor_le _) hyn
      exact_mod_cast h1
    apply rank_mono _ (List.sorted_insertionSort (· ≤ ·) xs)
    · exact sub_nonneg.mpr (Int.floor_le _)
    · have := Int.lt_floor_add_one (p / 100 * (((List.insertionSort (· ≤ ·) xs).length : ℚ) - 1))
      push_cast at this ⊢
      linarith
    · exact sub_nonneg.mpr (Int.floor_le _)
    · rcases lt_or_eq_of_le hfxy with hlt | heq
      · left
        have hxZ := Int.toNat_of_nonneg hfx0
        have hyZ := Int.toNat_of_nonneg hfy0
        omega
      · right
        constructor
        · omega
        · have : (⌊p / 100 * (((List.insertionSort (· ≤ ·) xs).length : ℚ) - 1)⌋ : ℚ) =
              (⌊q / 100 * (((List.insertionSort (· ≤ ·) xs).length : ℚ) - 1)⌋ : ℚ) := by
            exact_mod_cast congrArg (fun z : ℤ => (z : ℚ)) heq
          linarith
    · have hxZ := Int.toNat_of_nonneg hfy0
      omega

/-- A count ratio `a/(a+b)` over naturals lies in `[0, 1]` (with Lean's
`0/0 = 0` agreeing with the guarded source, whose guards make the zero
denominator unreachable anyway). -/
theorem natRatio_bounds (a b : Nat) :
    0 ≤ (a : ℚ) / ((a : ℚ) + (b : ℚ)) ∧ (a : ℚ) / ((a : ℚ) + (b : ℚ)) ≤ 1 := by
  rcases Nat.eq_zero_or_pos (a + b) with h | h
  · have ha : a = 0 := by omega
    have hb : b = 0 := by omega
    simp [ha, hb]
  · have hpos : (0 : ℚ) < (a : ℚ) + (b : ℚ) := by
      have : (0 : ℚ) < ((a + b : ℕ) : ℚ) := by exact_mod_cast h
      push_cast at this
      linarith
    constructor
    · apply div_nonneg (by positivity) (le_of_lt hpos)
    · rw [div_le_one hpos]
      have : (0 : ℚ) ≤ (b : ℚ) := by positivity
      linarith

/-- Precision is always in `[0, 1]`. -/
theorem precisionScore_bounds (yt yp : List Bool) :
    0 ≤ precisionScore yt yp ∧ precisionScore yt yp ≤ 1 := by
  unfold precisionScore
  split_ifs with h
  · norm_num
  · exact natRatio_bounds _ _

/-- Recall is always in `[0, 1]`. -/
theorem recallScore_bounds (yt yp : List Bool) :
    0 ≤ recallScore yt yp ∧ recallScore yt yp ≤ 1 := by
  unfold recallScore
  split_ifs with h
  · norm_num
  · exact natRatio_bounds _ _

/-- F1 is always in `[0, 1]`. -/
theorem f1Score_bounds (yt yp : List Bool) :
    0 ≤ f1Score yt yp ∧ f1Score yt yp ≤ 1 := by
  obtain ⟨hp0, hp1⟩ := precisionScore_bounds yt yp
  obtain ⟨hr0, hr1⟩ := recallScore_bounds yt yp
  unfold f1Score
  split_ifs with h
  · norm_num
  · have hpos : 0 < precisionScore yt yp + recallScore yt yp :=
      lt_of_le_of_ne (by linarith) (Ne.symm h)
    constructor
    · apply div_nonneg (by positivity) (le_of_lt hpos)
    · rw [div_le_one hpos]
      nlinarith [mul_nonneg (sub_nonneg.mpr hp1) hr0,
        mul_nonneg (sub_nonneg.mpr hr1) hp0]

/-- Every per-draw F1 bootstrap score is in `[0, 1]`. -/
theorem f1BootScore_bounds (yt yp : List Bool) (idxs : List Nat) :
    0 ≤ f1BootScore yt yp idxs ∧ f1BootScore yt yp idxs ≤ 1 := by
  unfold f1BootScore
  dsimp only
  split_ifs with h
  · norm_num
  · exact f1Score_bounds _ _

/-- Every per-draw FPR bootstrap score is in `[0, 1]`. -/
theorem fprBootScore_bounds (yt yp : List Bool) (idxs : List Nat) :
    0 ≤ fprBootScore yt yp idxs ∧ fprBootScore yt yp idxs ≤ 1 := by
  unfold fprBootScore
  dsimp only
  split_ifs with h
  · norm_num
  · exact natRatio_bounds _ _

/-- Every per-draw precision/recall bootstrap pair is in `[0, 1]²`. -/
theorem precRecallBootScore_bounds (yt yp : List Bool) (idxs : List Nat) :
    (0 ≤ (precRecallBootScore yt yp idxs).1 ∧
      (precRecallBootScore yt yp idxs).1 ≤ 1) ∧
    (0 ≤ (precRecallBootScore yt yp idxs).2 ∧
      (precRecallBootScore yt yp idxs).2 ≤ 1) := by
  unfold precRecallBootScore
  exact ⟨precisionScore_bounds _ _, recallScore_bounds _ _⟩

/-- Unfolding one iteration of the bootstrap loop. -/
theorem bootLoop_succ {α : Type} (score : List Nat → α) (k n st : Nat) :
    bootLoop score (k + 1) n st =
      (score (drawIndices n n st).1 ::
        (bootLoop score k n (drawIndices n n st).2).1,
       (bootLoop score k n (drawIndices n n st).2).2) := rfl

/-- Every collected bootstrap score satisfies any property all per-draw
scores satisfy. -/
theorem bootLoop_mem {α : Type} (score : List Nat → α) (P : α → Prop)
    (h : ∀ idxs, P (score idxs)) :
    ∀ (k n st : Nat), ∀ x ∈ (bootLoop score k n st).1, P x := by
  intro k
  induction k with
  | zero => intro n st x hx; simp [bootLoop] at hx
  | succ k ih =>
    intro n st x hx
    rw [bootLoop_succ] at hx
    rcases List.mem_cons.mp hx with hx | hx
    · exact hx ▸ h _
    · exact ih n _ x hx

/-- C6: on every valid input (non-empty aligned arrays, confidence level
strictly between 0 and 1), each of the four ratio-metric estimates (F1,
FPR, precision, recall) satisfies `0 ≤ ci_lower ≤ ci_upper ≤ 1`. -/
theorem ci_bounds_c6 (s : Nat) (yt yp : List Bool) (conf : ℚ)
    (nb seed : Nat) (h1 : yt ≠ []) (h2 : yt.length = yp.length)
    (hc0 : 0 < conf) (hc1 : conf < 1) :
    ciOkE (calculate_f1_with_ci s yt yp conf nb seed) ∧
    ciOkE (calculate_fpr_with_ci s yt yp conf nb seed) ∧
    ciOkPR (calculate_precision_recall_with_ci s yt yp conf nb seed) := by
  have hl : yt.length ≠ 0 := fun hh => h1 (List.length_eq_zero.mp hh)
  have hl2 : yp.length ≠ 0 := h2 ▸ hl
  have hne : ¬(yt.length = 0 ∨ yp.length = 0) := by push_neg; exact ⟨hl, hl2⟩
  have hplo : 0 ≤ (1 - conf) / 2 * 100 := by linarith
  have hpm : (1 - conf) / 2 * 100 ≤ (1 - (1 - conf) / 2) * 100 := by linarith
  have hphi : (1 - (1 - conf) / 2) * 100 ≤ 100 := by linarith
  refine ⟨?_, ?_, ?_⟩
  · unfold calculate_f1_with_ci
    rw [if_neg hne, if_neg (by simp [h2])]
    have hmem : ∀ x ∈ (bootLoop (f1BootScore yt yp) nb yt.length
        (npSeed seed)).1, 0 ≤ x ∧ x ≤ 1 :=
      bootLoop_mem _ _ (f1BootScore_bounds yt yp) nb yt.length (npSeed seed)
    exact ⟨(percentile_bounds _ _ hmem).1, percentile_mono _ hplo hpm hphi,
      (percentile_bounds _ _ hmem).2⟩
  · unfold calculate_fpr_with_ci
    rw [if_neg hne, if_neg (by simp [h2])]
    split_ifs with hz
    · exact ⟨le_refl 0, le_refl 0, by norm_num⟩
    · have hmem : ∀ x ∈ (bootLoop (fprBootScore yt yp) nb yt.length
          (npSeed seed)).1, 0 ≤ x ∧ x ≤ 1 :=
        bootLoop_mem _ _ (fprBootScore_bounds yt yp) nb yt.length (npSeed seed)
      exact ⟨(percentile_bounds _ _ hmem).1, percentile_mono _ hplo hpm hphi,
        (percentile_bounds _ _ hmem).2⟩
  · unfold calculate_precision_recall_with_ci
    rw [if_neg hne, if_neg (by simp [h2])]
    have hmemP : ∀ x ∈ ((bootLoop (precRecallBootScore yt yp) nb yt.length
        (npSeed seed)).1.map Prod.fst), 0 ≤ x ∧ x ≤ 1 := by
      intro x hx
      obtain ⟨pr, hpr, rfl⟩ := List.mem_map.mp hx
      exact (bootLoop_mem _ (fun q : ℚ × ℚ => (0 ≤ q.1 ∧ q.1 ≤ 1) ∧
        (0 ≤ q.2 ∧ q.2 ≤ 1)) (precRecallBootScore_bounds yt yp)
        nb yt.length (npSeed seed) pr hpr).1
    have hmemR : ∀ x ∈ ((bootLoop (precRecallBootScore yt yp) nb yt.length
        (npSeed seed)).1.map Prod.snd), 0 ≤ x ∧ x ≤ 1 := by
      intro x hx
      obtain ⟨pr, hpr, rfl⟩ := List.mem_map.mp hx
      exact (bootLoop_mem _ (fun q : ℚ × ℚ => (0 ≤ q.1 ∧ q.1 ≤ 1) ∧
        (0 ≤ q.2 ∧ q.2 ≤ 1)) (precRecallBootScore_bounds yt yp)
        nb yt.length (npSeed seed) pr hpr).2
    exact ⟨⟨(percentile_bounds _ _ hmemP).1, percentile_mono _ hplo hpm hphi,
      (percentile_bounds _ _ hmemP).2⟩,
      ⟨(percentile_bounds _ _ hmemR).1, percentile_mono _ hplo hpm hphi,
      (percentile_bounds _ _ hmemR).2⟩⟩

/-- C6 witness: concrete valid two-sample input with 95% confidence and two
bootstrap iterations. -/
theorem ci_bounds_c6_witness :
    ciOkE (calculate_f1_with_ci 0 [true, false] [true, true] (19 / 20) 2 42) ∧
    ciOkE (calculate_fpr_with_ci 0 [true, false] [true, true] (19 / 20) 2 42) ∧
    ciOkPR (calculate_precision_recall_with_ci 0 [true, false] [true, true]
      (19 / 20) 2 42) :=
  ci_bounds_c6 0 [true, false] [true, true] (19 / 20) 2 42 (by decide) rfl
    (by norm_num) (by norm_num)
